import Mathlib

/-!
Shallow embedding of the extinct-card monitor
(src/fut_gg_extinct_monitor.py, class FutGGExtinctMonitor).

The SQLite `cards` table is modelled as a list of rows in insertion order;
timestamps are seconds as natural numbers (save_extinct_alert, which
subtracts a cooldown from the current time, uses integers).  External
collaborators appear as explicit inputs: a scraped page is a list of
candidate records, the extinct-listing crawl is a function from page
numbers to such lists, and the `ORDER BY RANDOM()` draw of
get_cards_to_monitor is a list of per-row random keys.
-/

/-- A row of the `cards` table (init_database): cid models the
AUTOINCREMENT primary key, fut_gg_url carries the table's UNIQUE
constraint, extinction_status is the TEXT column with default "unknown". -/
structure Card where
  cid : Nat
  name : String
  rating : Nat
  position : String
  club : String
  nation : String
  league : String
  card_type : String
  fut_gg_url : String
  fut_gg_id : Option String
  extinction_status : String
  created_at : Nat
  last_checked : Nat
deriving Repr, DecidableEq

/-- The `cards` table: rows in insertion order. -/
abbrev Store := List Card

/-- A candidate record as built by scrape_fut_gg_players_sorted: name and
rating parsed from the page, the player url, and the appears_extinct flag
taken from the null-price heuristic. -/
structure ScrapedCard where
  name : String
  rating : Nat
  position : String
  club : String
  nation : String
  league : String
  card_type : String
  fut_gg_url : String
  appears_extinct : Bool
  fut_gg_id : Option String
deriving Repr, DecidableEq

/-- Does some row already hold this fut_gg_url (the UNIQUE constraint on
cards.fut_gg_url that makes INSERT OR IGNORE skip a duplicate)? -/
def urlExists (store : Store) (url : String) : Prop :=
  ∃ r ∈ store, r.fut_gg_url = url

instance (store : Store) (url : String) : Decidable (urlExists store url) := by
  unfold urlExists; exact List.decidableBEx _ store

/-- The next AUTOINCREMENT id of the cards table. -/
def nextId (store : Store) : Nat :=
  (store.foldl (fun m r => max m r.cid) 0) + 1

/-- One INSERT OR IGNORE INTO cards (name, rating, position, club, nation,
league, card_type, fut_gg_url, fut_gg_id): the row is created only when no
stored row holds the same fut_gg_url; extinction_status takes its column
default "unknown" and created_at / last_checked take CURRENT_TIMESTAMP.
Returns the table and the statement's rowcount. -/
def insertCard (now : Nat) (c : ScrapedCard) (store : Store) : Store × Nat :=
  if urlExists store c.fut_gg_url then (store, 0)
  else
    (store ++ [{ cid := nextId store, name := c.name, rating := c.rating,
                 position := c.position, club := c.club, nation := c.nation,
                 league := c.league, card_type := c.card_type,
                 fut_gg_url := c.fut_gg_url, fut_gg_id := c.fut_gg_id,
                 extinction_status := "unknown", created_at := now,
                 last_checked := now }], 1)

/-- save_cards_to_db: INSERT OR IGNORE every card of the batch in order,
counting the inserts whose rowcount was positive. -/
def save_cards_to_db (now : Nat) (cards : List ScrapedCard) (store : Store) :
    Store × Nat :=
  match cards with
  | [] => (store, 0)
  | c :: rest =>
      let p := insertCard now c store
      let q := save_cards_to_db now rest p.1
      (q.1, p.2 + q.2)

/-- scrape_extinct_zone_players, page loop: for each crawled page keep only
the cards flagged appears_extinct and save that page's batch at once;
returns the final table and the total number of newly saved rows.  The
argument lists the scrape results of pages 1..last_extinct_page. -/
def scrape_extinct_zone_players (now : Nat) (pages : List (List ScrapedCard))
    (store : Store) : Store × Nat :=
  match pages with
  | [] => (store, 0)
  | pg :: rest =>
      let p := save_cards_to_db now (pg.filter (fun c => c.appears_extinct)) store
      let q := scrape_extinct_zone_players now rest p.1
      (q.1, p.2 + q.2)

/-- ORDER BY created_at DESC LIMIT 1 over a list of rows: the row carrying
the greatest created_at (the earliest such row when several tie). -/
def latestByCreated : List Card → Option Card
  | [] => none
  | r :: rest =>
      match latestByCreated rest with
      | none => some r
      | some m => if r.created_at < m.created_at then some m else some r

/-- get_card_extinction_status: SELECT extinction_status FROM cards WHERE
name = ? ORDER BY created_at DESC LIMIT 1, none when no row matches. -/
def get_card_extinction_status (player_name : String) (store : Store) :
    Option String :=
  (latestByCreated (store.filter (fun r => decide (r.name = player_name)))).map
    (fun r => r.extinction_status)

/-- update_card_extinction_status: UPDATE cards SET extinction_status = ?,
last_checked = CURRENT_TIMESTAMP WHERE name = ?. -/
def update_card_extinction_status (player_name status : String) (now : Nat)
    (store : Store) : Store :=
  store.map (fun r =>
    if r.name = player_name then
      { r with extinction_status := status, last_checked := now }
    else r)

/-- The working state of one monitor_extinct_zone cycle: the cards table
together with the newly_extinct and no_longer_extinct batches the cycle
accumulates before notifying. -/
structure CycleState where
  store : Store
  newly_extinct : List ScrapedCard
  no_longer_extinct : List ScrapedCard
deriving Repr, DecidableEq

/-- The per-card body of monitor_extinct_zone's scan: skip cards with no
usable name; read the stored status under the card's name; on extinct with
a stored status other than "extinct", append to newly_extinct and store
"extinct"; on not extinct with stored status "extinct", append to
no_longer_extinct and store "available"; otherwise leave everything be. -/
def process_card (now : Nat) (st : CycleState) (card : ScrapedCard) : CycleState :=
  if card.name = "" ∨ card.name = "Unknown" then st
  else
    let previous := get_card_extinction_status card.name st.store
    if card.appears_extinct = true ∧ previous ≠ some "extinct" then
      { store := update_card_extinction_status card.name "extinct" now st.store,
        newly_extinct := st.newly_extinct ++ [card],
        no_longer_extinct := st.no_longer_extinct }
    else if card.appears_extinct = false ∧ previous = some "extinct" then
      { store := update_card_extinction_status card.name "available" now st.store,
        newly_extinct := st.newly_extinct,
        no_longer_extinct := st.no_longer_extinct ++ [card] }
    else st

/-- One cycle of monitor_extinct_zone over the cards scraped from the
sampled pages, starting from empty alert batches. -/
def monitor_extinct_zone_cycle (now : Nat) (scraped : List ScrapedCard)
    (store : Store) : CycleState :=
  scraped.foldl (process_card now)
    { store := store, newly_extinct := [], no_longer_extinct := [] }

/-- send_availability_alerts: one batched notification when the cycle's
no_longer_extinct list is nonempty, none otherwise (the message body lists
at most ten of the cards). -/
def send_availability_alerts (cards : List ScrapedCard) : Nat :=
  if cards.isEmpty then 0 else 1

/-- A row of the extinct_alerts table. -/
structure AlertRow where
  card_id : Nat
  alert_sent_at : Int
  resolved_at : Option Int
deriving Repr, DecidableEq

/-- save_extinct_alert: count the unresolved alerts of this card sent after
now minus cooldownHours hours; when one exists, report the cooldown as
active (false) and leave the table alone, otherwise insert a fresh alert
row and report true. -/
def save_extinct_alert (card_id : Nat) (now cooldownHours : Int)
    (alerts : List AlertRow) : Bool × List AlertRow :=
  let cooldown_time := now - cooldownHours * 3600
  let recent_alerts := (alerts.filter (fun a =>
    decide (a.card_id = card_id ∧ cooldown_time < a.alert_sent_at ∧
      a.resolved_at = none))).length
  if 0 < recent_alerts then (false, alerts)
  else (true, alerts ++ [{ card_id := card_id, alert_sent_at := now,
                           resolved_at := none }])

/-- send_extinct_alert: save_extinct_alert is the only gate; the Telegram
and Discord messages go out exactly when it returns true.  Result: whether
the alert was emitted, and the new extinct_alerts table. -/
def send_extinct_alert (card_id : Nat) (now cooldownHours : Int)
    (alerts : List AlertRow) : Bool × List AlertRow :=
  save_extinct_alert card_id now cooldownHours alerts

/-- Insert one (row, random key) pair into a list already sorted by
ascending key. -/
def insertByKey (p : Card × Nat) : List (Card × Nat) → List (Card × Nat)
  | [] => [p]
  | q :: rest => if p.2 < q.2 then p :: q :: rest else q :: insertByKey p rest

/-- Sort (row, random key) pairs by ascending key: the ORDER BY RANDOM()
of get_cards_to_monitor, with the draw made explicit. -/
def sortByRandomKey : List (Card × Nat) → List (Card × Nat)
  | [] => []
  | p :: rest => insertByKey p (sortByRandomKey rest)

/-- get_cards_to_monitor: SELECT ... FROM cards ORDER BY RANDOM() LIMIT ?.
randKeys are the RANDOM() draws, one per row; the rows are ordered by them
and the first `limit` kept.  No age, rating or status condition appears in
the query. -/
def get_cards_to_monitor (randKeys : List Nat) (limit : Nat) (store : Store) :
    Store :=
  ((sortByRandomKey (store.zip randKeys)).map (fun p => p.1)).take limit

/-- The page loop of scrape_all_players with `left` pages of the cap still
allowed, currently at `page`: fetch the page; when it has cards, save them
and move on; when it is empty, stop for page greater than 1 and move on
for page 1.  Returns the table, the total saved and the pages fetched. -/
def scrape_all_players_go (now : Nat) (pages : Nat → List ScrapedCard) :
    Nat → Nat → Store → Store × Nat × Nat
  | 0, _, store => (store, 0, 0)
  | left + 1, page, store =>
      let cards := pages page
      if cards.isEmpty then
        if 1 < page then (store, 0, 1)
        else
          let q := scrape_all_players_go now pages left (page + 1) store
          (q.1, q.2.1, q.2.2 + 1)
      else
        let p := save_cards_to_db now cards store
        let q := scrape_all_players_go now pages left (page + 1) p.1
        (q.1, p.2 + q.2.1, q.2.2 + 1)

/-- scrape_all_players: crawl pages 1..max_pages in order, breaking at the
first page after page 1 that returns no cards. -/
def scrape_all_players (now : Nat) (pages : Nat → List ScrapedCard)
    (max_pages : Nat) (store : Store) : Store × Nat × Nat :=
  scrape_all_players_go now pages max_pages 1 store

/-! Concrete inputs used by the counterexamples and witnesses. -/

/-- Candidate "A" / rating 90 under identifier id1. -/
def cA1 : ScrapedCard :=
  { name := "A", rating := 90, position := "Unknown", club := "Unknown",
    nation := "Unknown", league := "Unknown", card_type := "Gold",
    fut_gg_url := "id1", appears_extinct := true, fut_gg_id := none }

/-- Candidate "A" / rating 90 under the second identifier id2. -/
def cA2 : ScrapedCard :=
  { name := "A", rating := 90, position := "Unknown", club := "Unknown",
    nation := "Unknown", league := "Unknown", card_type := "Gold",
    fut_gg_url := "id2", appears_extinct := true, fut_gg_id := none }

/-- Candidate "B" / rating 85 under identifier id3. -/
def cB3 : ScrapedCard :=
  { name := "B", rating := 85, position := "Unknown", club := "Unknown",
    nation := "Unknown", league := "Unknown", card_type := "Gold",
    fut_gg_url := "id3", appears_extinct := true, fut_gg_id := none }

/-- A rating-79 candidate flagged extinct on the listing. -/
def lowRated : ScrapedCard :=
  { name := "Low", rating := 79, position := "Unknown", club := "Unknown",
    nation := "Unknown", league := "Unknown", card_type := "Gold",
    fut_gg_url := "lowU", appears_extinct := true, fut_gg_id := none }

/-- A stored row tracked as extinct, for the monitoring cycle scenarios. -/
def extinctRowP : Card :=
  { cid := 1, name := "P", rating := 90, position := "Unknown",
    club := "Unknown", nation := "Unknown", league := "Unknown",
    card_type := "Gold", fut_gg_url := "uP", fut_gg_id := none,
    extinction_status := "extinct", created_at := 0, last_checked := 0 }

/-- The same player scraped with a price again (not extinct). -/
def scrapedPAvailable : ScrapedCard :=
  { name := "P", rating := 90, position := "Unknown", club := "Unknown",
    nation := "Unknown", league := "Unknown", card_type := "Gold",
    fut_gg_url := "uP", appears_extinct := false, fut_gg_id := none }

/-- The same player scraped with a null price (extinct). -/
def scrapedPExtinct : ScrapedCard :=
  { name := "P", rating := 90, position := "Unknown", club := "Unknown",
    nation := "Unknown", league := "Unknown", card_type := "Gold",
    fut_gg_url := "uP", appears_extinct := true, fut_gg_id := none }

/-! Helper lemmas about INSERT OR IGNORE and the discovery crawl. -/

/-- A url present in the table stays present through one insert. -/
lemma urlExists_insertCard (now : Nat) (c : ScrapedCard) (store : Store)
    (u : String) (h : urlExists store u) : urlExists (insertCard now c store).1 u := by
  unfold insertCard
  split
  · exact h
  · obtain ⟨r, hr, hu⟩ := h
    exact ⟨r, List.mem_append_left _ hr, hu⟩

/-- A url present in the table stays present through a whole batch save. -/
lemma urlExists_save (now : Nat) (cards : List ScrapedCard) (store : Store)
    (u : String) (h : urlExists store u) :
    urlExists (save_cards_to_db now cards store).1 u := by
  induction cards generalizing store with
  | nil => exact h
  | cons c rest ih =>
      simpa [save_cards_to_db] using ih _ (urlExists_insertCard now c store u h)

/-- A url present in the table stays present through the whole extinct-zone
crawl. -/
lemma urlExists_scrape (now : Nat) (pages : List (List ScrapedCard))
    (store : Store) (u : String) (h : urlExists store u) :
    urlExists (scrape_extinct_zone_players now pages store).1 u := by
  induction pages generalizing store with
  | nil => exact h
  | cons pg rest ih =>
      simpa [scrape_extinct_zone_players] using ih _ (urlExists_save now _ store u h)

/-- After saving a batch, every card of the batch has its url in the table
(it was inserted, or a row with the url was already there). -/
lemma save_covers (now : Nat) (cards : List ScrapedCard) (store : Store) :
    ∀ c ∈ cards, urlExists (save_cards_to_db now cards store).1 c.fut_gg_url := by
  induction cards generalizing store with
  | nil => intro c hc; cases hc
  | cons d rest ih =>
      intro c hc
      rcases List.mem_cons.mp hc with h | h
      · subst h
        have hd : urlExists (insertCard now c store).1 c.fut_gg_url := by
          unfold insertCard
          split
          · assumption
          · refine ⟨_, List.mem_append_right _ (List.mem_singleton_self _), rfl⟩
        simpa [save_cards_to_db] using urlExists_save now rest _ _ hd
      · simpa [save_cards_to_db] using ih (insertCard now d store).1 c h

/-- A batch whose urls are all already stored is saved without effect:
INSERT OR IGNORE skips every row and the count is zero. -/
lemma save_of_all_present (now : Nat) (cards : List ScrapedCard) (store : Store)
    (h : ∀ c ∈ cards, urlExists store c.fut_gg_url) :
    save_cards_to_db now cards store = (store, 0) := by
  induction cards with
  | nil => rfl
  | cons c rest ih =>
      have hc : urlExists store c.fut_gg_url := h c (List.mem_cons_self _ _)
      have hrest : ∀ d ∈ rest, urlExists store d.fut_gg_url :=
        fun d hd => h d (List.mem_cons_of_mem _ hd)
      simp [save_cards_to_db, insertCard, hc, ih hrest]

/-- After the extinct-zone crawl, every extinct candidate of every crawled
page has its url in the table. -/
lemma scrape_covers (now : Nat) (pages : List (List ScrapedCard)) (store : Store) :
    ∀ pg ∈ pages, ∀ c ∈ pg, c.appears_extinct = true →
      urlExists (scrape_extinct_zone_players now pages store).1 c.fut_gg_url := by
  induction pages generalizing store with
  | nil => intro pg hpg; cases hpg
  | cons q rest ih =>
      intro pg hpg c hc hext
      rcases List.mem_cons.mp hpg with h | h
      · subst h
        have hmem : c ∈ pg.filter (fun d => d.appears_extinct) :=
          List.mem_filter.mpr ⟨hc, hext⟩
        have hcov := save_covers now (pg.filter (fun d => d.appears_extinct))
          store c hmem
        simpa [scrape_extinct_zone_players] using
          urlExists_scrape now rest _ _ hcov
      · simpa [scrape_extinct_zone_players] using
          ih (save_cards_to_db now (q.filter (fun d => d.appears_extinct)) store).1
            pg h c hc hext

/-- A crawl over pages whose extinct candidates are all already stored
saves nothing and leaves the table unchanged. -/
lemma scrape_of_all_present (now : Nat) (pages : List (List ScrapedCard))
    (store : Store)
    (h : ∀ pg ∈ pages, ∀ c ∈ pg, c.appears_extinct = true →
      urlExists store c.fut_gg_url) :
    scrape_extinct_zone_players now pages store = (store, 0) := by
  induction pages with
  | nil => rfl
  | cons pg rest ih =>
      have hpg : ∀ c ∈ pg.filter (fun d => d.appears_extinct),
          urlExists store c.fut_gg_url := by
        intro c hc
        obtain ⟨hmem, hext⟩ := List.mem_filter.mp hc
        exact h pg (List.mem_cons_self _ _) c hmem hext
      have hrest : ∀ q ∈ rest, ∀ c ∈ q, c.appears_extinct = true →
          urlExists store c.fut_gg_url :=
        fun q hq c hc hext => h q (List.mem_cons_of_mem _ hq) c hc hext
      simp [scrape_extinct_zone_players, save_of_all_present now _ store hpg, ih hrest]

/-! Claim C5. -/

/-- C5: discovery is idempotent.  Running the extinct-zone crawl a second
time against the unchanged source listing inserts zero rows: after the
first run every extinct candidate's url is stored, so the UNIQUE
constraint on fut_gg_url makes INSERT OR IGNORE skip every re-insert. -/
theorem c5_discovery_idempotent (now now2 : Nat)
    (pages : List (List ScrapedCard)) (store : Store) :
    (scrape_extinct_zone_players now2 pages
      (scrape_extinct_zone_players now pages store).1).2 = 0 := by
  have h := scrape_covers now pages store
  rw [scrape_of_all_present now2 pages _ h]

/-! Claim C3. -/

/-- C3 counterexample: on the batch of the claim's own scenario, all three
candidates are inserted (saved count 3) and the two same-(name, rating)
identifiers id1 and id2 both end up stored, against the claim that their
group is dropped and only id3 is inserted. -/
theorem c3_counterexample_all_three_inserted :
    (scrape_extinct_zone_players 0 [[cA1, cA2, cB3]] []).2 = 3 ∧
    urlExists (scrape_extinct_zone_players 0 [[cA1, cA2, cB3]] []).1 "id1" ∧
    urlExists (scrape_extinct_zone_players 0 [[cA1, cA2, cB3]] []).1 "id2" ∧
    urlExists (scrape_extinct_zone_players 0 [[cA1, cA2, cB3]] []).1 "id3" := by
  decide

/-- C3 amended: discovery performs no (name, rating) grouping and drops no
duplicate group; every candidate that appears extinct on a crawled page has
its identifier stored after the crawl, its twin identifiers included. -/
theorem c3_no_duplicate_group_exclusion (now : Nat)
    (pages : List (List ScrapedCard)) (store : Store)
    (pg : List ScrapedCard) (c : ScrapedCard)
    (hpg : pg ∈ pages) (hc : c ∈ pg) (hext : c.appears_extinct = true) :
    urlExists (scrape_extinct_zone_players now pages store).1 c.fut_gg_url :=
  scrape_covers now pages store pg hpg c hc hext

/-- C3 witness: the amended statement at the scenario batch, for the
dropped-by-the-spec candidate id1. -/
theorem c3_no_duplicate_group_exclusion_witness :
    urlExists (scrape_extinct_zone_players 0 [[cA1, cA2, cB3]] []).1
      cA1.fut_gg_url :=
  c3_no_duplicate_group_exclusion 0 [[cA1, cA2, cB3]] [] [cA1, cA2, cB3] cA1
    (by decide) (by decide) (by decide)

/-! Claim C6. -/

/-- C6 counterexample: a rating-79 candidate flagged extinct is inserted by
the crawl, against the claim that a candidate below a minRating of 81 is
never inserted: no rating threshold exists anywhere in the discovery path. -/
theorem c6_counterexample_low_rating_inserted :
    lowRated.rating = 79 ∧
    (scrape_extinct_zone_players 0 [[lowRated]] []).2 = 1 ∧
    urlExists (scrape_extinct_zone_players 0 [[lowRated]] []).1 "lowU" := by
  decide

/-- C6 amended: insertion is gated only by the appears_extinct flag and
url novelty, never by rating: any extinct candidate whose url is new is
inserted, whatever its rating. -/
theorem c6_no_rating_eligibility_filter (now : Nat) (c : ScrapedCard)
    (store : Store) (hext : c.appears_extinct = true)
    (hnew : ¬ urlExists store c.fut_gg_url) :
    (scrape_extinct_zone_players now [[c]] store).2 = 1 ∧
    urlExists (scrape_extinct_zone_players now [[c]] store).1 c.fut_gg_url := by
  constructor
  · simp [scrape_extinct_zone_players, save_cards_to_db, insertCard, hext, hnew]
  · exact scrape_covers now [[c]] store [c] (by simp) c (by simp) hext

/-- C6 witness: the amended statement at the rating-79 candidate over the
empty table. -/
theorem c6_no_rating_eligibility_filter_witness :
    (scrape_extinct_zone_players 5 [[lowRated]] []).2 = 1 ∧
    urlExists (scrape_extinct_zone_players 5 [[lowRated]] []).1
      lowRated.fut_gg_url :=
  c6_no_rating_eligibility_filter 5 lowRated [] (by decide) (by decide)

/-! Helper lemmas about the status read, the status update and one
monitoring cycle. -/

/-- ORDER BY ... LIMIT 1 returns a row exactly when the table is nonempty. -/
lemma latestByCreated_eq_none_iff (l : List Card) :
    latestByCreated l = none ↔ l = [] := by
  cases l with
  | nil => simp [latestByCreated]
  | cons r rest =>
      constructor
      · intro h
        unfold latestByCreated at h
        rcases hrest : latestByCreated rest with _ | m <;> simp [hrest] at h
        split at h <;> simp at h
      · intro h; cases h

/-- The row latestByCreated returns belongs to the list and carries the
greatest created_at. -/
lemma latestByCreated_spec (l : List Card) (h : l ≠ []) :
    ∃ m, latestByCreated l = some m ∧ m ∈ l ∧
      ∀ x ∈ l, x.created_at ≤ m.created_at := by
  induction l with
  | nil => exact absurd rfl h
  | cons r rest ih =>
      rcases hrest : latestByCreated rest with _ | m
      · have : rest = [] := (latestByCreated_eq_none_iff rest).mp hrest
        subst this
        exact ⟨r, by simp [latestByCreated], by simp, by simp⟩
      · have hne : rest ≠ [] := by
          intro hnil; subst hnil; simp [latestByCreated] at hrest
        obtain ⟨m0, hm0, hmem, hub⟩ := ih hne
        rw [hrest] at hm0
        cases hm0
        by_cases hlt : r.created_at < m.created_at
        · refine ⟨m, ?_, List.mem_cons_of_mem _ hmem, ?_⟩
          · simp [latestByCreated, hrest, hlt]
          · intro x hx
            rcases List.mem_cons.mp hx with hx | hx
            · subst hx; exact Nat.le_of_lt hlt
            · exact hub x hx
        · refine ⟨r, ?_, List.mem_cons_self _ _, ?_⟩
          · simp [latestByCreated, hrest, hlt]
          · intro x hx
            rcases List.mem_cons.mp hx with hx | hx
            · subst hx; exact Nat.le_refl _
            · exact Nat.le_trans (hub x hx) (Nat.le_of_not_lt hlt)

/-- Filtering the updated table by the updated name is the same as
updating the filtered rows: the update touches exactly the rows whose name
matches, and it never changes a row's name. -/
lemma filter_update (player_name status : String) (now : Nat) (store : Store) :
    (update_card_extinction_status player_name status now store).filter
        (fun r => decide (r.name = player_name))
      = (store.filter (fun r => decide (r.name = player_name))).map
          (fun r => { r with extinction_status := status, last_checked := now }) := by
  induction store with
  | nil => rfl
  | cons r rest ih =>
      by_cases h : r.name = player_name
      · simp [update_card_extinction_status, List.filter, h] at ih ⊢
        exact ih
      · simp [update_card_extinction_status, List.filter, h] at ih ⊢
        exact ih

/-- latestByCreated commutes with the status update, which leaves every
created_at alone. -/
lemma latestByCreated_map_update (status : String) (now : Nat) (l : List Card) :
    latestByCreated (l.map
        (fun r => { r with extinction_status := status, last_checked := now }))
      = (latestByCreated l).map
          (fun r => { r with extinction_status := status, last_checked := now }) := by
  induction l with
  | nil => rfl
  | cons r rest ih =>
      rcases hrest : latestByCreated rest with _ | m
      · simp [latestByCreated, ih, hrest]
      · simp only [List.map, latestByCreated, ih, hrest, Option.map]
        by_cases hlt : r.created_at < m.created_at <;> simp [hlt]

/-- A successful status read means some row matches the name. -/
lemma filter_ne_nil_of_get_some (player_name s : String) (store : Store)
    (h : get_card_extinction_status player_name store = some s) :
    store.filter (fun r => decide (r.name = player_name)) ≠ [] := by
  intro hnil
  unfold get_card_extinction_status at h
  rw [hnil] at h
  simp [latestByCreated] at h

/-- Reading a name's status right after updating that name returns the
written status (whenever some row carries the name). -/
lemma get_after_update (player_name status : String) (now : Nat) (store : Store)
    (h : store.filter (fun r => decide (r.name = player_name)) ≠ []) :
    get_card_extinction_status player_name
        (update_card_extinction_status player_name status now store)
      = some status := by
  unfold get_card_extinction_status
  rw [filter_update, latestByCreated_map_update]
  obtain ⟨m, hm, _, _⟩ := latestByCreated_spec _ h
  rw [hm]
  rfl

/-- The per-card body never deletes a row: the table's length is kept. -/
lemma process_card_store_length (now : Nat) (st : CycleState) (card : ScrapedCard) :
    (process_card now st card).store.length = st.store.length := by
  unfold process_card
  split
  · rfl
  · dsimp only
    split
    · simp [update_card_extinction_status]
    · split
      · simp [update_card_extinction_status]
      · rfl

/-- A whole monitoring cycle never deletes a row. -/
lemma cycle_store_length (now : Nat) (scraped : List ScrapedCard) (store : Store) :
    (monitor_extinct_zone_cycle now scraped store).store.length = store.length := by
  unfold monitor_extinct_zone_cycle
  suffices h : ∀ st : CycleState,
      (scraped.foldl (process_card now) st).store.length = st.store.length by
    exact h _
  induction scraped with
  | nil => intro st; rfl
  | cons c rest ih =>
      intro st
      rw [List.foldl_cons, ih]
      exact process_card_store_length now st c

/-- A cycle that scrapes one tracked-extinct card now carrying a price:
the very first miss updates the stored status to "available" in place and
puts the card in that cycle's availability batch. -/
lemma cycle_single_available (now : Nat) (store : Store) (c : ScrapedCard)
    (hname : ¬ (c.name = "" ∨ c.name = "Unknown"))
    (hext : c.appears_extinct = false)
    (hprev : get_card_extinction_status c.name store = some "extinct") :
    monitor_extinct_zone_cycle now [c] store
      = { store := update_card_extinction_status c.name "available" now store,
          newly_extinct := [], no_longer_extinct := [c] } := by
  show process_card now ⟨store, [], []⟩ c = _
  unfold process_card
  rw [if_neg hname]
  simp [hext, hprev]

/-! Claim C1. -/

/-- C1 counterexample: a tracked-extinct entity absent from the listing for
a single cycle already triggers the availability alert batch, and after
three consecutive such cycles the row is still stored, never removed — the
code keeps no consecutive-miss counter at all. -/
theorem c1_counterexample_no_hysteresis :
    send_availability_alerts
      (monitor_extinct_zone_cycle 100 [scrapedPAvailable]
        [extinctRowP]).no_longer_extinct = 1 ∧
    (monitor_extinct_zone_cycle 300 [scrapedPAvailable]
      (monitor_extinct_zone_cycle 200 [scrapedPAvailable]
        (monitor_extinct_zone_cycle 100 [scrapedPAvailable]
          [extinctRowP]).store).store).store.length = 1 := by
  decide

/-- C1 amended: monitor_extinct_zone applies no hysteresis.  On the first
cycle in which a tracked-extinct entity appears with a price again, the
cycle puts it in the availability-alert batch (one batched alert goes out),
rewrites its stored status to "available" in place, and deletes nothing;
the next such cycle adds no further alert, because the stored status is no
longer "extinct". -/
theorem c1_first_miss_emits_alert (now now2 : Nat) (store : Store)
    (c : ScrapedCard)
    (hname : ¬ (c.name = "" ∨ c.name = "Unknown"))
    (hext : c.appears_extinct = false)
    (hprev : get_card_extinction_status c.name store = some "extinct") :
    (monitor_extinct_zone_cycle now [c] store).no_longer_extinct = [c] ∧
    send_availability_alerts
      (monitor_extinct_zone_cycle now [c] store).no_longer_extinct = 1 ∧
    (monitor_extinct_zone_cycle now [c] store).store
      = update_card_extinction_status c.name "available" now store ∧
    (monitor_extinct_zone_cycle now [c] store).store.length = store.length ∧
    (monitor_extinct_zone_cycle now2 [c]
      (monitor_extinct_zone_cycle now [c] store).store).no_longer_extinct = [] := by
  have key := cycle_single_available now store c hname hext hprev
  have hget2 : get_card_extinction_status c.name
      (update_card_extinction_status c.name "available" now store)
        = some "available" :=
    get_after_update c.name "available" now store
      (filter_ne_nil_of_get_some c.name "extinct" store hprev)
  refine ⟨by rw [key], by rw [key]; rfl, by rw [key], ?_, ?_⟩
  · rw [key]
    simp [update_card_extinction_status]
  · rw [key]
    show (process_card now2 ⟨_, [], []⟩ c).no_longer_extinct = []
    unfold process_card
    rw [if_neg hname]
    simp [hext, hget2]

/-- C1 witness: the amended statement at the concrete one-row store tracked
as extinct and the same player scraped with a price. -/
theorem c1_first_miss_emits_alert_witness :
    (monitor_extinct_zone_cycle 100 [scrapedPAvailable] [extinctRowP]).no_longer_extinct
      = [scrapedPAvailable] ∧
    send_availability_alerts
      (monitor_extinct_zone_cycle 100 [scrapedPAvailable]
        [extinctRowP]).no_longer_extinct = 1 ∧
    (monitor_extinct_zone_cycle 100 [scrapedPAvailable] [extinctRowP]).store
      = update_card_extinction_status "P" "available" 100 [extinctRowP] ∧
    (monitor_extinct_zone_cycle 100 [scrapedPAvailable] [extinctRowP]).store.length
      = [extinctRowP].length ∧
    (monitor_extinct_zone_cycle 200 [scrapedPAvailable]
      (monitor_extinct_zone_cycle 100 [scrapedPAvailable]
        [extinctRowP]).store).no_longer_extinct = [] :=
  c1_first_miss_emits_alert 100 200 [extinctRowP] scrapedPAvailable
    (by decide) (by decide) (by decide)

/-! Claim C2. -/

/-- C2 counterexample: starting from a discovery insert, one cycle marks
the row "extinct" and the next observes it available and persists
extinction_status = "available" on the stored row — the row is kept, not
deleted, so the store does hold a non-extinct status. -/
theorem c2_counterexample_available_persisted :
    ((monitor_extinct_zone_cycle 20 [scrapedPAvailable]
        (monitor_extinct_zone_cycle 10 [scrapedPExtinct]
          (save_cards_to_db 0 [scrapedPExtinct] []).1).store).store.filter
      (fun r => decide (r.extinction_status = "available"))).length = 1 ∧
    (monitor_extinct_zone_cycle 20 [scrapedPAvailable]
        (monitor_extinct_zone_cycle 10 [scrapedPExtinct]
          (save_cards_to_db 0 [scrapedPExtinct] []).1).store).store.length = 1 := by
  decide

/-- C2 amended: the monitoring cycle never deletes a row (the table keeps
its length), and an entity tracked as extinct that is observed available
is persisted with status "available" in place of being removed. -/
theorem c2_available_update_not_deletion (now : Nat)
    (scraped : List ScrapedCard) (store : Store) (c : ScrapedCard)
    (hname : ¬ (c.name = "" ∨ c.name = "Unknown"))
    (hext : c.appears_extinct = false)
    (hprev : get_card_extinction_status c.name store = some "extinct") :
    (monitor_extinct_zone_cycle now scraped store).store.length = store.length ∧
    ∃ r ∈ (monitor_extinct_zone_cycle now [c] store).store,
      r.extinction_status = "available" := by
  refine ⟨cycle_store_length now scraped store, ?_⟩
  rw [cycle_single_available now store c hname hext hprev]
  obtain ⟨r0, hr0⟩ := List.exists_mem_of_ne_nil _
    (filter_ne_nil_of_get_some c.name "extinct" store hprev)
  obtain ⟨hr0s, hr0dec⟩ := List.mem_filter.mp hr0
  have hr0name : r0.name = c.name := of_decide_eq_true hr0dec
  refine ⟨{ r0 with extinction_status := "available", last_checked := now },
    ?_, rfl⟩
  unfold update_card_extinction_status
  exact List.mem_map.mpr ⟨r0, hr0s, by rw [if_pos hr0name]⟩

/-- C2 witness: the amended statement at the concrete one-row store. -/
theorem c2_available_update_not_deletion_witness :
    (monitor_extinct_zone_cycle 100 [scrapedPAvailable] [extinctRowP]).store.length
      = [extinctRowP].length ∧
    ∃ r ∈ (monitor_extinct_zone_cycle 100 [scrapedPAvailable] [extinctRowP]).store,
      r.extinction_status = "available" :=
  c2_available_update_not_deletion 100 [scrapedPAvailable] [extinctRowP]
    scrapedPAvailable (by decide) (by decide) (by decide)

/-! Claim C10. -/

/-- An older row sharing the name "A" with rowA2. -/
def rowA1 : Card :=
  { cid := 1, name := "A", rating := 85, position := "Unknown",
    club := "Unknown", nation := "Unknown", league := "Unknown",
    card_type := "Gold", fut_gg_url := "a1", fut_gg_id := none,
    extinction_status := "old1", created_at := 10, last_checked := 10 }

/-- The most recently created row named "A". -/
def rowA2 : Card :=
  { cid := 2, name := "A", rating := 88, position := "Unknown",
    club := "Unknown", nation := "Unknown", league := "Unknown",
    card_type := "Gold", fut_gg_url := "a2", fut_gg_id := none,
    extinction_status := "old2", created_at := 20, last_checked := 20 }

/-- C10: status reads and writes are keyed by player name.  When r is the
most recently created row named player_name, the read returns r's status;
one update writes the status and last_checked onto every row carrying the
name and keeps every other row; reading the name after the write returns
the written status; and reading a name no row carries returns none. -/
theorem c10_status_keyed_by_name (player_name other status : String)
    (now : Nat) (store : Store) (r : Card)
    (hr : r ∈ store) (hname : r.name = player_name)
    (hmax : ∀ r2 ∈ store, r2.name = player_name → r2 ≠ r →
      r2.created_at < r.created_at)
    (hother : ∀ x ∈ store, x.name ≠ other) :
    get_card_extinction_status player_name store = some r.extinction_status ∧
    (∀ x ∈ update_card_extinction_status player_name status now store,
        x.name = player_name →
          x.extinction_status = status ∧ x.last_checked = now) ∧
    (∀ x ∈ store, x.name ≠ player_name →
        x ∈ update_card_extinction_status player_name status now store) ∧
    (update_card_extinction_status player_name status now store).length
      = store.length ∧
    get_card_extinction_status player_name
        (update_card_extinction_status player_name status now store)
      = some status ∧
    get_card_extinction_status other store = none := by
  have hrfl : r ∈ store.filter (fun x => decide (x.name = player_name)) :=
    List.mem_filter.mpr ⟨hr, decide_eq_true hname⟩
  refine ⟨?_, ?_, ?_, ?_, ?_, ?_⟩
  · obtain ⟨m, hm, hmem, hub⟩ :=
      latestByCreated_spec _ (List.ne_nil_of_mem hrfl)
    obtain ⟨hmstore, hmdec⟩ := List.mem_filter.mp hmem
    by_cases hmr : m = r
    · subst hmr
      unfold get_card_extinction_status
      rw [hm]
      rfl
    · have hlt := hmax m hmstore (of_decide_eq_true hmdec) hmr
      have hle := hub r hrfl
      omega
  · intro x hx hxname
    obtain ⟨y, hy, hyx⟩ := List.mem_map.mp hx
    by_cases hyname : y.name = player_name
    · rw [if_pos hyname] at hyx
      subst hyx
      exact ⟨rfl, rfl⟩
    · rw [if_neg hyname] at hyx
      subst hyx
      exact absurd hxname hyname
  · intro x hx hxname
    unfold update_card_extinction_status
    exact List.mem_map.mpr ⟨x, hx, by rw [if_neg hxname]⟩
  · simp [update_card_extinction_status]
  · exact get_after_update player_name status now store
      (List.ne_nil_of_mem hrfl)
  · unfold get_card_extinction_status
    have : store.filter (fun x => decide (x.name = other)) = [] := by
      rw [List.filter_eq_nil_iff]
      intro x hx
      simp only [decide_eq_true_eq]
      exact hother x hx
    rw [this]
    rfl

/-- C10 witness: the four read/write facts at the concrete two-row store
whose rows both carry the name "A". -/
theorem c10_status_keyed_by_name_witness :
    get_card_extinction_status "A" [rowA1, rowA2] = some rowA2.extinction_status ∧
    (∀ x ∈ update_card_extinction_status "A" "extinct" 99 [rowA1, rowA2],
        x.name = "A" → x.extinction_status = "extinct" ∧ x.last_checked = 99) ∧
    (∀ x ∈ [rowA1, rowA2], x.name ≠ "A" →
        x ∈ update_card_extinction_status "A" "extinct" 99 [rowA1, rowA2]) ∧
    (update_card_extinction_status "A" "extinct" 99 [rowA1, rowA2]).length
      = [rowA1, rowA2].length ∧
    get_card_extinction_status "A"
        (update_card_extinction_status "A" "extinct" 99 [rowA1, rowA2])
      = some "extinct" ∧
    get_card_extinction_status "Z" [rowA1, rowA2] = none :=
  c10_status_keyed_by_name "A" "Z" "extinct" 99 [rowA1, rowA2] rowA2
    (by decide) (by decide) (by decide) (by decide)

/-! Claims C7 and C9. -/

/-- Membership through the key-ordered insertion. -/
lemma mem_of_mem_insertByKey (p q : Card × Nat) (l : List (Card × Nat))
    (h : q ∈ insertByKey p l) : q = p ∨ q ∈ l := by
  induction l with
  | nil => simpa [insertByKey] using h
  | cons x rest ih =>
      unfold insertByKey at h
      split at h
      · rcases List.mem_cons.mp h with h | h
        · exact Or.inl h
        · exact Or.inr h
      · rcases List.mem_cons.mp h with h | h
        · exact Or.inr (h ▸ List.mem_cons_self _ _)
        · rcases ih h with h | h
          · exact Or.inl h
          · exact Or.inr (List.mem_cons_of_mem _ h)

/-- The ORDER BY RANDOM() sort only rearranges the (row, key) pairs. -/
lemma mem_of_mem_sortByRandomKey (q : Card × Nat) (l : List (Card × Nat))
    (h : q ∈ sortByRandomKey l) : q ∈ l := by
  induction l with
  | nil => simp [sortByRandomKey] at h
  | cons p rest ih =>
      rcases mem_of_mem_insertByKey p q _ h with h | h
      · exact h ▸ List.mem_cons_self _ _
      · exact List.mem_cons_of_mem _ (ih h)

/-- A stored row whose age is under 1800 seconds: created this instant. -/
def youngRow : Card :=
  { cid := 3, name := "Y", rating := 92, position := "Unknown",
    club := "Unknown", nation := "Unknown", league := "Unknown",
    card_type := "Gold", fut_gg_url := "uY", fut_gg_id := none,
    extinction_status := "unknown", created_at := 1000000,
    last_checked := 1000000 }

/-- C7 counterexample: at now = 1000000 the row created at 1000000 (age 0,
far under 1800 seconds) is returned by the monitoring query — the query
carries no age condition at all. -/
theorem c7_counterexample_fresh_row_selected :
    1000000 - youngRow.created_at < 1800 ∧
    get_cards_to_monitor [5] 50 [youngRow] = [youngRow] := by
  decide

/-- C7 amended: get_cards_to_monitor applies no grace period or age filter:
it returns up to `limit` stored rows in random-key order, so an entity
first detected any time ago — including under 1800 seconds — is eligible
for checking at once.  A one-row table always has its row selected. -/
theorem c7_no_grace_period (k : Nat) (ks : List Nat) (limit : Nat) (c : Card)
    (hl : 0 < limit) :
    get_cards_to_monitor (k :: ks) limit [c] = [c] := by
  cases limit with
  | zero => omega
  | succ n =>
      simp [get_cards_to_monitor, sortByRandomKey, insertByKey]

/-- C7 witness: the amended statement at the just-created row. -/
theorem c7_no_grace_period_witness :
    get_cards_to_monitor (3 :: []) 50 [youngRow] = [youngRow] :=
  c7_no_grace_period 3 [] 50 youngRow (by decide)

/-- The lower-rated of two stored rows. -/
def rowLo : Card :=
  { cid := 4, name := "LO", rating := 80, position := "Unknown",
    club := "Unknown", nation := "Unknown", league := "Unknown",
    card_type := "Gold", fut_gg_url := "uLo", fut_gg_id := none,
    extinction_status := "unknown", created_at := 100, last_checked := 100 }

/-- The higher-rated of two stored rows. -/
def rowHi : Card :=
  { cid := 5, name := "HI", rating := 90, position := "Unknown",
    club := "Unknown", nation := "Unknown", league := "Unknown",
    card_type := "Gold", fut_gg_url := "uHi", fut_gg_id := none,
    extinction_status := "unknown", created_at := 100, last_checked := 100 }

/-- C9 counterexample: under one random draw the lower-rated row comes
first (so the order is not rating-descending), and a second draw over the
same store returns a different sequence — ORDER BY RANDOM() is neither
priority-ordered nor reproducible. -/
theorem c9_counterexample_random_order :
    get_cards_to_monitor [0, 1] 50 [rowLo, rowHi] = [rowLo, rowHi] ∧
    rowLo.rating < rowHi.rating ∧
    get_cards_to_monitor [1, 0] 50 [rowLo, rowHi] = [rowHi, rowLo] ∧
    get_cards_to_monitor [0, 1] 50 [rowLo, rowHi]
      ≠ get_cards_to_monitor [1, 0] 50 [rowLo, rowHi] := by
  decide

/-- C9 amended: the monitoring selection is ordered by the per-row
RANDOM() keys, not by rating or lastCheckedAt; all the query guarantees is
that it returns at most `limit` rows and only stored rows. -/
theorem c9_random_selection_bounds (randKeys : List Nat) (limit : Nat)
    (store : Store) :
    (get_cards_to_monitor randKeys limit store).length ≤ limit ∧
    ∀ c ∈ get_cards_to_monitor randKeys limit store, c ∈ store := by
  constructor
  · exact List.length_take_le limit _
  · intro c hc
    have hc2 := List.mem_of_mem_take hc
    obtain ⟨p, hp, hpc⟩ := List.mem_map.mp hc2
    have hzip := mem_of_mem_sortByRandomKey p _ hp
    have := (List.of_mem_zip hzip).1
    rwa [hpc] at this

/-! Claim C4. -/

/-- A stored row standing in for a card the monitor re-encounters. -/
def trackedRowQ : Card :=
  { cid := 7, name := "Q", rating := 93, position := "Unknown",
    club := "Unknown", nation := "Unknown", league := "Unknown",
    card_type := "Gold", fut_gg_url := "uQ", fut_gg_id := none,
    extinction_status := "unknown", created_at := 0, last_checked := 0 }

/-- C4 counterexample: for a card already stored, the first probe alert is
emitted; one hour later a second probe is suppressed by the 6-hour
cooldown (a time-based suppression mechanism); seven hours later the same
already-stored card is alerted again — so re-encounter alerts depend on
elapsed time, not on an insert gate. -/
theorem c4_counterexample_time_gated_realert :
    trackedRowQ ∈ [trackedRowQ] ∧
    (send_extinct_alert 7 0 6 []).1 = true ∧
    (send_extinct_alert 7 3600 6 (send_extinct_alert 7 0 6 []).2).1 = false ∧
    (send_extinct_alert 7 25200 6 (send_extinct_alert 7 0 6 []).2).1 = true := by
  decide

/-- C4 amended: extinct-alert emission is gated by a time-based cooldown on
the extinct_alerts table, not by a successful new insert: whenever every
unresolved alert of the card is at least cooldownHours old, the alert is
emitted (again) and a fresh alert row recorded, regardless of the card
being stored already. -/
theorem c4_cooldown_gated_alerts (card_id : Nat) (now cooldownHours : Int)
    (alerts : List AlertRow)
    (h : ∀ a ∈ alerts, a.card_id = card_id → a.resolved_at = none →
      a.alert_sent_at ≤ now - cooldownHours * 3600) :
    (send_extinct_alert card_id now cooldownHours alerts).1 = true ∧
    (send_extinct_alert card_id now cooldownHours alerts).2
      = alerts ++ [{ card_id := card_id, alert_sent_at := now,
                     resolved_at := none }] := by
  have hfilter : alerts.filter (fun a => decide (a.card_id = card_id ∧
      now - cooldownHours * 3600 < a.alert_sent_at ∧ a.resolved_at = none))
        = [] := by
    rw [List.filter_eq_nil_iff]
    intro a ha
    simp only [decide_eq_true_eq]
    rintro ⟨h1, h2, h3⟩
    exact absurd h2 (not_lt.mpr (h a ha h1 h3))
  unfold send_extinct_alert save_extinct_alert
  dsimp only
  rw [hfilter]
  simp

/-- An unresolved alert recorded at time 0. -/
def alertAt0 : AlertRow := { card_id := 7, alert_sent_at := 0, resolved_at := none }

/-- C4 witness: the amended statement seven hours after the recorded alert,
under the default 6-hour cooldown. -/
theorem c4_cooldown_gated_alerts_witness :
    (send_extinct_alert 7 25200 6 [alertAt0]).1 = true ∧
    (send_extinct_alert 7 25200 6 [alertAt0]).2
      = [alertAt0] ++ [{ card_id := 7, alert_sent_at := 25200,
                         resolved_at := none }] :=
  c4_cooldown_gated_alerts 7 25200 6 [alertAt0] (by decide)

/-! Claim C8. -/

/-- The single candidate of the claim's crawl scenario. -/
def mbappe : ScrapedCard :=
  { name := "Mbappe", rating := 91, position := "Unknown", club := "Unknown",
    nation := "Unknown", league := "Unknown", card_type := "Gold",
    fut_gg_url := "u1", appears_extinct := true, fut_gg_id := none }

/-- A candidate sitting on page 3, after an empty page 2. -/
def lateCard : ScrapedCard :=
  { name := "Late", rating := 88, position := "Unknown", club := "Unknown",
    nation := "Unknown", league := "Unknown", card_type := "Gold",
    fut_gg_url := "u3", appears_extinct := true, fut_gg_id := none }

/-- The claim's scenario listing: page 1 holds one candidate, every later
page is empty. -/
def c8ScenarioPages : Nat → List ScrapedCard :=
  fun p => if p = 1 then [mbappe] else []

/-- A listing with a gap: page 2 empty, page 3 nonempty. -/
def c8GapPages : Nat → List ScrapedCard :=
  fun p => if p = 1 then [mbappe] else if p = 3 then [lateCard] else []

/-- C8 counterexample: on the claim's own scenario the crawl fetches only
pages 1 and 2 — it stops at the first empty page after page 1, not after
three consecutive empty pages (pages 2 to 4 are never all visited) — and
on a listing with a candidate behind a single empty page, that candidate
is never inserted, which the three-empty-pages rule would have reached. -/
theorem c8_counterexample_single_empty_page_stop :
    (scrape_all_players 0 c8ScenarioPages 10 []).2.2 = 2 ∧
    (scrape_all_players 0 c8ScenarioPages 10 []).2.1 = 1 ∧
    (scrape_all_players 0 c8GapPages 10 []).2.2 = 2 ∧
    ¬ urlExists (scrape_all_players 0 c8GapPages 10 []).1 "u3" := by
  decide

/-- C8 amended: the crawl visits pages sequentially from page 1 and
terminates at the first empty page after page 1 (or at the max_pages cap,
default 10 — not 200, and with no per-entity discovery alert in the loop):
whenever page 1 is nonempty and page 2 empty, exactly pages 1 and 2 are
fetched and exactly page 1's batch is saved. -/
theorem c8_crawl_stops_at_first_empty_page (now : Nat)
    (pages : Nat → List ScrapedCard) (left : Nat) (store : Store)
    (h1 : (pages 1).isEmpty = false) (h2 : (pages 2).isEmpty = true) :
    scrape_all_players now pages (left + 1 + 1) store
      = ((save_cards_to_db now (pages 1) store).1,
         (save_cards_to_db now (pages 1) store).2, 2) := by
  show scrape_all_players_go now pages (left + 1 + 1) 1 store = _
  unfold scrape_all_players_go
  dsimp only
  rw [h1]
  simp only [Bool.false_eq_true, if_false]
  unfold scrape_all_players_go
  dsimp only
  rw [show (pages (1 + 1)).isEmpty = true from h2]
  simp

/-- C8 witness: the amended statement on the scenario listing with the
default cap of 10 pages. -/
theorem c8_crawl_stops_at_first_empty_page_witness :
    scrape_all_players 0 c8ScenarioPages 10 []
      = ((save_cards_to_db 0 (c8ScenarioPages 1) []).1,
         (save_cards_to_db 0 (c8ScenarioPages 1) []).2, 2) :=
  c8_crawl_stops_at_first_empty_page 0 c8ScenarioPages 8 [] (by decide) (by decide)
